import Mathlib

/-!
Shallow embedding of the particle-line loading animation
(`src/collection_loading_animation/src/script.ts`, class `ParticleSystem`).

Numbers are modelled over an arbitrary linear ordered field `R` (instantiated
with `ℚ` in concrete witnesses, and standing for the exact reals the spec
reasons with).  The trigonometric functions and π, which the claims never need
any analytic property of, are passed in as parameters `cosF sinF : R → R` and
`piV : R`; the mathematical statements hold for every choice, in particular
for `Real.cos`, `Real.sin` and `Real.pi`.  `Math.random()` is modelled as a
stream `rnd : ℕ → R` of samples, consumed in program order (three samples per
created particle).  The `Float32Array` vertex buffer is a `List R`; JavaScript
typed-array stores ignore out-of-range indices, exactly as `List.set` does.
-/

namespace CollectionAnim

/-- One particle, mirroring the `Particle` interface of `script.ts`:
a fixed grid anchor `position`, a `rotation` phase, a per-frame `speed`
and a `radius`. -/
structure Particle (R : Type) where
  posX : R
  posY : R
  rotation : R
  speed : R
  radius : R
  deriving DecidableEq, Repr

/-- The mutable state of `ParticleSystem` that the animation logic touches:
the particle array, the flat vertex buffer and the `numParticles` field. -/
structure SystemState (R : Type) where
  particles : List (Particle R)
  vertices : List R
  numParticles : Nat
  deriving DecidableEq, Repr

/-- A call into the WebGL backend, recorded as an event so that per-frame
draw behaviour can be stated. -/
inductive GLCmd (R : Type) where
  | clear
  | bufferData (data : List R)
  | drawLines (first : Nat) (count : Nat)
  | flush
  deriving DecidableEq, Repr

/-- Recognise the `drawArrays(LINES, …)` event. -/
def GLCmd.isDrawLines {R : Type} : GLCmd R → Bool
  | .drawLines _ _ => true
  | _ => false

section Model

variable {R : Type} [LinearOrderedField R]

/-- `particle.rotation += particle.speed` (script.ts line 209). -/
def tickParticle (p : Particle R) : Particle R :=
  { p with rotation := p.rotation + p.speed }

/-- The body of the update loop after the rotation increment
(script.ts lines 211-224): with `idx = i * 6`, compute
`cos = Math.cos(rotation) * radius`, `sin = Math.sin(rotation) * radius`
and store the two segment endpoints into the vertex buffer. -/
def writeSegment (cosF sinF : R → R) (verts : List R) (i : Nat) (p : Particle R) :
    List R :=
  let idx := i * 6
  let radius := p.radius
  let c := cosF p.rotation * radius
  let s := sinF p.rotation * radius
  ((((((verts.set idx (p.posX + c)).set (idx + 1) (p.posY + s)).set (idx + 2) 0).set
      (idx + 3) (p.posX - c)).set (idx + 4) (p.posY - s)).set (idx + 5) 0)

/-- The `for` loop of `updateParticles` (script.ts lines 207-225), processing
the particles from index `i` on: each particle first has its rotation
incremented, then its two endpoints written at buffer offset `i * 6`. -/
def updateFrom (cosF sinF : R → R) : Nat → List (Particle R) → List R →
    List (Particle R) × List R
  | _, [], verts => ([], verts)
  | i, p :: rest, verts =>
    let p2 := tickParticle p
    let verts2 := writeSegment cosF sinF verts i p2
    let r := updateFrom cosF sinF (i + 1) rest verts2
    (p2 :: r.1, r.2)

/-- `ParticleSystem.updateParticles` (script.ts lines 206-228) minus the final
`gl.bufferData` upload, which is recorded separately by `updateParticlesGL`. -/
def updateParticles (cosF sinF : R → R) (s : SystemState R) : SystemState R :=
  let r := updateFrom cosF sinF 0 s.particles s.vertices
  { s with particles := r.1, vertices := r.2 }

/-- `ParticleSystem.updateParticles` together with the `gl.bufferData` call it
issues (script.ts line 227). -/
def updateParticlesGL (cosF sinF : R → R) (s : SystemState R) :
    SystemState R × List (GLCmd R) :=
  let s2 := updateParticles cosF sinF s
  (s2, [GLCmd.bufferData s2.vertices])

/-- `ParticleSystem.draw` (script.ts lines 230-235): clear, update the
particles and upload the buffer, draw `numParticles * 2` vertices as lines,
flush.  Returns the new state and the backend events of the frame. -/
def draw (cosF sinF : R → R) (s : SystemState R) :
    SystemState R × List (GLCmd R) :=
  let r := updateParticlesGL cosF sinF s
  (r.1, GLCmd.clear :: r.2 ++ [GLCmd.drawLines 0 (r.1.numParticles * 2), GLCmd.flush])

/-- `Math.ceil(Math.sqrt n)` for a natural `n` (script.ts line 178):
the least natural `k` with `n ≤ k * k`. -/
def gridWidth (n : Nat) : Nat :=
  if Nat.sqrt n * Nat.sqrt n = n then Nat.sqrt n else Nat.sqrt n + 1

/-- The particle pushed at loop index `i` of `createParticles`
(script.ts lines 181-191), with grid width `gw`, cell size `cell`, and the
three `Math.random()` samples for this particle taken from the stream:
`x = (i % gridWidth) * cellSize - 1.0`,
`y = Math.floor(i / gridWidth) * cellSize - 1.0`,
`rotation = random * π * 2`, `speed = random * 0.02 + 0.01`,
`radius = random * 0.1 + 0.05`. -/
def mkParticle (piV : R) (rnd : Nat → R) (gw : Nat) (cell : R) (i : Nat) :
    Particle R :=
  { posX := ((i % gw : Nat) : R) * cell - 1
    posY := ((i / gw : Nat) : R) * cell - 1
    rotation := rnd (3 * i) * piV * 2
    speed := rnd (3 * i + 1) * 0.02 + 0.01
    radius := rnd (3 * i + 2) * 0.1 + 0.05 }

/-- The body of `createParticles` (script.ts lines 173-191) generalised over
the particle count it installs: sets `numParticles := n`, allocates a fresh
zero buffer of `n * 6` floats, and fills the particle array from the grid. -/
def createParticlesN (piV : R) (rnd : Nat → R) (n : Nat) (s : SystemState R) :
    SystemState R :=
  let gw := gridWidth n
  let cell := (2 : R) / (gw : R)
  { s with
    numParticles := n
    particles := (List.range n).map (mkParticle piV rnd gw cell)
    vertices := List.replicate (n * 6) 0 }

/-- `ParticleSystem.createParticles` (script.ts lines 173-204): the count it
installs is the hard-coded literal `80000` of line 174, regardless of the
previous value of `numParticles`. -/
def createParticles (piV : R) (rnd : Nat → R) (s : SystemState R) : SystemState R :=
  createParticlesN piV rnd 80000 s

/-- `ParticleSystem.setParticleCount` (script.ts lines 243-246):
`this.numParticles = count; this.createParticles()`. -/
def setParticleCount (piV : R) (rnd : Nat → R) (count : Nat) (s : SystemState R) :
    SystemState R :=
  createParticles piV rnd { s with numParticles := count }

/-- The buffer-shape invariant of the spec: the vertex buffer holds exactly
six floats per particle. -/
def BufInv (s : SystemState R) : Prop :=
  s.vertices.length = s.particles.length * 6

/-- Which of the fallible browser/WebGL resource acquisitions of the
constructor succeed.  Each flag mirrors one checked call site of
`script.ts`. -/
structure BrowserEnv where
  canvasFound : Bool
  webglAvailable : Bool
  vertexShaderCreated : Bool
  vertexShaderCompiles : Bool
  fragmentShaderCreated : Bool
  fragmentShaderCompiles : Bool
  programCreated : Bool
  programLinks : Bool
  uniformLocationsFound : Bool
  bufferCreated : Bool
  deriving DecidableEq, Repr

/-- `ParticleSystem.compileShader` (script.ts lines 92-108): throws if
`createShader` returns null or if compilation fails. -/
def compileShaderE (created compiles : Bool) : Except String Unit :=
  if created = false then .error "Failed to create shader"
  else if compiles = false then .error "Shader compilation error"
  else .ok ()

/-- The `ParticleSystem` constructor (script.ts lines 33-44) with the checks
of `initWebGL`, `initShaders`, `setupScene` and `createParticles` in program
order; every failed acquisition throws immediately.  (The source interpolates
the canvas id into the first message with quotes around it; the quotes are
elided here.) -/
def initSystem (piV : R) (rnd : Nat → R) (canvasId : String) (env : BrowserEnv) :
    Except String (SystemState R) :=
  if env.canvasFound = false then
    .error ("Canvas element with id " ++ canvasId ++ " not found")
  else if env.webglAvailable = false then .error "WebGL not supported"
  else
    match compileShaderE env.vertexShaderCreated env.vertexShaderCompiles with
    | .error e => .error e
    | .ok _ =>
      match compileShaderE env.fragmentShaderCreated env.fragmentShaderCompiles with
      | .error e => .error e
      | .ok _ =>
        if env.programCreated = false then .error "Failed to create shader program"
        else if env.programLinks = false then .error "Unable to initialize shaders"
        else if env.uniformLocationsFound = false then
          .error "Unable to get uniform locations"
        else if env.bufferCreated = false then .error "Failed to create vertex buffer"
        else .ok (createParticles piV rnd
          { particles := [], vertices := [], numParticles := 0 })

/-- The tick, embedded into the exception monad of the constructor: the body
of `updateParticles` contains no `throw` and no fallible call, so the
embedding is `Except.ok` of the total update. -/
def updateParticlesE (cosF sinF : R → R) (s : SystemState R) :
    Except String (SystemState R) :=
  .ok (updateParticles cosF sinF s)

end Model

/-- A sample particle over `ℚ`, used to instantiate theorems at concrete
inputs: `posX = 1`, `posY = 2`, `rotation = 0`, `speed = 1`, `radius = 3`. -/
def sampleP : Particle ℚ := ⟨1, 2, 0, 1, 3⟩

/-- A sample one-particle state over `ℚ` with a correctly sized zero buffer. -/
def sampleS : SystemState ℚ := ⟨[sampleP], List.replicate 6 0, 1⟩

/-- A sample stand-in for `Math.cos` over `ℚ`. -/
def cosQ : ℚ → ℚ := fun x => x

/-- A sample stand-in for `Math.sin` over `ℚ`. -/
def sinQ : ℚ → ℚ := fun x => x + 1

/-- The sample state `sampleS` with different (stale) buffer contents. -/
def sampleS2 : SystemState ℚ := ⟨[sampleP], List.replicate 6 7, 1⟩

/-- A sample stand-in for the `Math.random()` sample stream over `ℚ`. -/
def rndQ : ℕ → ℚ := fun _ => 1 / 2

/-- The particle created at loop index 0 of a one-particle initialization
over `ℚ` with `piV = 4` and the sample random stream. -/
def sampleP7 : Particle ℚ :=
  mkParticle 4 rndQ (gridWidth 1) ((2 : ℚ) / (gridWidth 1 : ℚ)) 0

/-- A sample browser environment in which the canvas lookup fails and every
other resource acquisition would succeed. -/
def envNoCanvas : BrowserEnv :=
  ⟨false, true, true, true, true, true, true, true, true, true⟩

section Lemmas

variable {R : Type} [LinearOrderedField R] (cosF sinF : R → R)

theorem length_writeSegment (verts : List R) (i : Nat) (p : Particle R) :
    (writeSegment cosF sinF verts i p).length = verts.length := by
  simp [writeSegment]

theorem getElem?_writeSegment_out (verts : List R) (i : Nat) (p : Particle R)
    (m : Nat) (hm : m < i * 6 ∨ i * 6 + 6 ≤ m) :
    (writeSegment cosF sinF verts i p)[m]? = verts[m]? := by
  simp only [writeSegment]
  rw [List.getElem?_set_ne (show i * 6 + 5 ≠ m by omega),
    List.getElem?_set_ne (show i * 6 + 4 ≠ m by omega),
    List.getElem?_set_ne (show i * 6 + 3 ≠ m by omega),
    List.getElem?_set_ne (show i * 6 + 2 ≠ m by omega),
    List.getElem?_set_ne (show i * 6 + 1 ≠ m by omega),
    List.getElem?_set_ne (show i * 6 ≠ m by omega)]

theorem writeSegment_spec (verts : List R) (i : Nat) (p : Particle R)
    (h : i * 6 + 5 < verts.length) :
    (writeSegment cosF sinF verts i p)[i * 6]? =
        some (p.posX + cosF p.rotation * p.radius) ∧
      (writeSegment cosF sinF verts i p)[i * 6 + 1]? =
        some (p.posY + sinF p.rotation * p.radius) ∧
      (writeSegment cosF sinF verts i p)[i * 6 + 2]? = some 0 ∧
      (writeSegment cosF sinF verts i p)[i * 6 + 3]? =
        some (p.posX - cosF p.rotation * p.radius) ∧
      (writeSegment cosF sinF verts i p)[i * 6 + 4]? =
        some (p.posY - sinF p.rotation * p.radius) ∧
      (writeSegment cosF sinF verts i p)[i * 6 + 5]? = some 0 := by
  simp only [writeSegment]
  refine ⟨?_, ?_, ?_, ?_, ?_, ?_⟩
  · rw [List.getElem?_set_ne (by omega), List.getElem?_set_ne (by omega),
      List.getElem?_set_ne (by omega), List.getElem?_set_ne (by omega),
      List.getElem?_set_ne (by omega),
      List.getElem?_set_self (by simpa using by omega)]
  · rw [List.getElem?_set_ne (by omega), List.getElem?_set_ne (by omega),
      List.getElem?_set_ne (by omega), List.getElem?_set_ne (by omega),
      List.getElem?_set_self (by simpa using by omega)]
  · rw [List.getElem?_set_ne (by omega), List.getElem?_set_ne (by omega),
      List.getElem?_set_ne (by omega),
      List.getElem?_set_self (by simpa using by omega)]
  · rw [List.getElem?_set_ne (by omega), List.getElem?_set_ne (by omega),
      List.getElem?_set_self (by simpa using by omega)]
  · rw [List.getElem?_set_ne (by omega),
      List.getElem?_set_self (by simpa using by omega)]
  · rw [List.getElem?_set_self (by simpa using by omega)]

theorem updateFrom_fst (i : Nat) (ps : List (Particle R)) (verts : List R) :
    (updateFrom cosF sinF i ps verts).1 = ps.map tickParticle := by
  induction ps generalizing i verts with
  | nil => rfl
  | cons p rest ih => simp only [updateFrom, List.map_cons, ih]

theorem length_updateFrom_snd (i : Nat) (ps : List (Particle R)) (verts : List R) :
    (updateFrom cosF sinF i ps verts).2.length = verts.length := by
  induction ps generalizing i verts with
  | nil => rfl
  | cons p rest ih => simp only [updateFrom, ih, length_writeSegment]

theorem getElem?_updateFrom_snd_lt (ps : List (Particle R)) (i : Nat)
    (verts : List R) (m : Nat) (hm : m < i * 6) :
    (updateFrom cosF sinF i ps verts).2[m]? = verts[m]? := by
  induction ps generalizing i verts with
  | nil => rfl
  | cons p rest ih =>
    simp only [updateFrom]
    rw [ih (i + 1) _ (by omega),
      getElem?_writeSegment_out cosF sinF _ _ _ _ (Or.inl hm)]

theorem getElem?_updateFrom_snd_slot (ps : List (Particle R)) (i : Nat)
    (verts : List R) (j : Nat) (p : Particle R) (hp : ps[j]? = some p)
    (hlen : (i + j) * 6 + 5 < verts.length) :
    (updateFrom cosF sinF i ps verts).2[(i + j) * 6]? =
        some (p.posX + cosF (p.rotation + p.speed) * p.radius) ∧
      (updateFrom cosF sinF i ps verts).2[(i + j) * 6 + 1]? =
        some (p.posY + sinF (p.rotation + p.speed) * p.radius) ∧
      (updateFrom cosF sinF i ps verts).2[(i + j) * 6 + 2]? = some 0 ∧
      (updateFrom cosF sinF i ps verts).2[(i + j) * 6 + 3]? =
        some (p.posX - cosF (p.rotation + p.speed) * p.radius) ∧
      (updateFrom cosF sinF i ps verts).2[(i + j) * 6 + 4]? =
        some (p.posY - sinF (p.rotation + p.speed) * p.radius) ∧
      (updateFrom cosF sinF i ps verts).2[(i + j) * 6 + 5]? = some 0 := by
  induction ps generalizing i verts j with
  | nil => simp at hp
  | cons q rest ih =>
    cases j with
    | zero =>
      simp only [List.getElem?_cons_zero, Option.some.injEq] at hp
      subst hp
      simp only [updateFrom, Nat.add_zero]
      have hw := writeSegment_spec cosF sinF verts i (tickParticle q)
        (by simpa using hlen)
      simp only [tickParticle] at hw
      rw [getElem?_updateFrom_snd_lt cosF sinF rest (i + 1) _ _ (by omega),
        getElem?_updateFrom_snd_lt cosF sinF rest (i + 1) _ _ (by omega),
        getElem?_updateFrom_snd_lt cosF sinF rest (i + 1) _ _ (by omega),
        getElem?_updateFrom_snd_lt cosF sinF rest (i + 1) _ _ (by omega),
        getElem?_updateFrom_snd_lt cosF sinF rest (i + 1) _ _ (by omega),
        getElem?_updateFrom_snd_lt cosF sinF rest (i + 1) _ _ (by omega)]
      exact hw
    | succ j' =>
      simp only [List.getElem?_cons_succ] at hp
      have harith : i + (j' + 1) = (i + 1) + j' := by omega
      rw [harith]
      simp only [updateFrom]
      exact ih (i + 1) _ j' hp
        (by rw [length_writeSegment]; omega)

theorem updateParticles_particles (s : SystemState R) :
    (updateParticles cosF sinF s).particles = s.particles.map tickParticle :=
  updateFrom_fst cosF sinF 0 s.particles s.vertices

theorem updateParticles_numParticles (s : SystemState R) :
    (updateParticles cosF sinF s).numParticles = s.numParticles := rfl

theorem length_updateParticles_vertices (s : SystemState R) :
    (updateParticles cosF sinF s).vertices.length = s.vertices.length :=
  length_updateFrom_snd cosF sinF 0 s.particles s.vertices

theorem getElem?_updateParticles_slot (s : SystemState R) (j : Nat)
    (p : Particle R) (hp : s.particles[j]? = some p) (hinv : BufInv s) :
    (updateParticles cosF sinF s).vertices[j * 6]? =
        some (p.posX + cosF (p.rotation + p.speed) * p.radius) ∧
      (updateParticles cosF sinF s).vertices[j * 6 + 1]? =
        some (p.posY + sinF (p.rotation + p.speed) * p.radius) ∧
      (updateParticles cosF sinF s).vertices[j * 6 + 2]? = some 0 ∧
      (updateParticles cosF sinF s).vertices[j * 6 + 3]? =
        some (p.posX - cosF (p.rotation + p.speed) * p.radius) ∧
      (updateParticles cosF sinF s).vertices[j * 6 + 4]? =
        some (p.posY - sinF (p.rotation + p.speed) * p.radius) ∧
      (updateParticles cosF sinF s).vertices[j * 6 + 5]? = some 0 := by
  have hj : j < s.particles.length := (List.getElem?_eq_some_iff.mp hp).1
  have hlen : (0 + j) * 6 + 5 < s.vertices.length := by
    rw [hinv]; omega
  have h := getElem?_updateFrom_snd_slot cosF sinF s.particles 0 s.vertices j p
    hp hlen
  simpa [updateParticles] using h

theorem createParticlesN_particles (piV : R) (rnd : Nat → R) (n : Nat)
    (t : SystemState R) :
    (createParticlesN piV rnd n t).particles =
      (List.range n).map
        (mkParticle piV rnd (gridWidth n) ((2 : R) / (gridWidth n : R))) := rfl

theorem createParticlesN_vertices (piV : R) (rnd : Nat → R) (n : Nat)
    (t : SystemState R) :
    (createParticlesN piV rnd n t).vertices = List.replicate (n * 6) 0 := rfl

theorem createParticlesN_numParticles (piV : R) (rnd : Nat → R) (n : Nat)
    (t : SystemState R) :
    (createParticlesN piV rnd n t).numParticles = n := rfl

theorem createParticles_eq (piV : R) (rnd : Nat → R) (t : SystemState R) :
    createParticles piV rnd t = createParticlesN piV rnd 80000 t := rfl

theorem setParticleCount_eq (piV : R) (rnd : Nat → R) (c : Nat)
    (t : SystemState R) :
    setParticleCount piV rnd c t =
      createParticlesN piV rnd 80000 { t with numParticles := c } := rfl

theorem length_createParticlesN_particles (piV : R) (rnd : Nat → R) (n : Nat)
    (t : SystemState R) :
    (createParticlesN piV rnd n t).particles.length = n := by
  rw [createParticlesN_particles, List.length_map, List.length_range]

theorem bufInv_createParticlesN (piV : R) (rnd : Nat → R) (n : Nat)
    (t : SystemState R) : BufInv (createParticlesN piV rnd n t) := by
  unfold BufInv
  rw [createParticlesN_vertices, List.length_replicate,
    length_createParticlesN_particles]

end Lemmas

section Claims

variable {R : Type} [LinearOrderedField R]

/-- **C1**: one tick first increments each particle's rotation by its speed,
then computes `cos = cos(rotation) * radius` and `sin = sin(rotation) * radius`
from the incremented rotation, and writes the particle's two segment endpoints
into the vertex buffer at offset `j * 6` as
`(position.x + cos, position.y + sin, 0)` and
`(position.x - cos, position.y - sin, 0)`, i.e. `position ± (cos, sin)` with
`z = 0`. -/
theorem claim_C1_tick_writes_endpoints (cosF sinF : R → R) (s : SystemState R)
    (hinv : BufInv s) (j : Nat) (p : Particle R)
    (hp : s.particles[j]? = some p) :
    (updateParticles cosF sinF s).particles[j]? =
        some { p with rotation := p.rotation + p.speed } ∧
      (updateParticles cosF sinF s).vertices[j * 6]? =
        some (p.posX + cosF (p.rotation + p.speed) * p.radius) ∧
      (updateParticles cosF sinF s).vertices[j * 6 + 1]? =
        some (p.posY + sinF (p.rotation + p.speed) * p.radius) ∧
      (updateParticles cosF sinF s).vertices[j * 6 + 2]? = some 0 ∧
      (updateParticles cosF sinF s).vertices[j * 6 + 3]? =
        some (p.posX - cosF (p.rotation + p.speed) * p.radius) ∧
      (updateParticles cosF sinF s).vertices[j * 6 + 4]? =
        some (p.posY - sinF (p.rotation + p.speed) * p.radius) ∧
      (updateParticles cosF sinF s).vertices[j * 6 + 5]? = some 0 := by
  refine ⟨?_, getElem?_updateParticles_slot cosF sinF s j p hp hinv⟩
  rw [updateParticles_particles, List.getElem?_map, hp]
  rfl

/-- Witness for C1 at a concrete one-particle state over `ℚ`, with sample
trigonometric stand-ins. -/
theorem claim_C1_witness :
    (updateParticles cosQ sinQ sampleS).particles[0]? =
        some { sampleP with rotation := sampleP.rotation + sampleP.speed } ∧
      (updateParticles cosQ sinQ sampleS).vertices[0 * 6]? =
        some (sampleP.posX +
          cosQ (sampleP.rotation + sampleP.speed) * sampleP.radius) ∧
      (updateParticles cosQ sinQ sampleS).vertices[0 * 6 + 1]? =
        some (sampleP.posY +
          sinQ (sampleP.rotation + sampleP.speed) * sampleP.radius) ∧
      (updateParticles cosQ sinQ sampleS).vertices[0 * 6 + 2]? = some 0 ∧
      (updateParticles cosQ sinQ sampleS).vertices[0 * 6 + 3]? =
        some (sampleP.posX -
          cosQ (sampleP.rotation + sampleP.speed) * sampleP.radius) ∧
      (updateParticles cosQ sinQ sampleS).vertices[0 * 6 + 4]? =
        some (sampleP.posY -
          sinQ (sampleP.rotation + sampleP.speed) * sampleP.radius) ∧
      (updateParticles cosQ sinQ sampleS).vertices[0 * 6 + 5]? = some 0 :=
  claim_C1_tick_writes_endpoints cosQ sinQ sampleS rfl 0 sampleP rfl

/-- **C2**: after `N` ticks with no reinitialization in between, every
particle's rotation equals its initial rotation plus `N` times its speed
(all other fields unchanged). -/
theorem claim_C2_rotation_after_n_ticks (cosF sinF : R → R) (N : Nat)
    (s : SystemState R) (j : Nat) (p : Particle R)
    (hp : s.particles[j]? = some p) :
    ((updateParticles cosF sinF)^[N] s).particles[j]? =
      some { p with rotation := p.rotation + (N : R) * p.speed } := by
  induction N generalizing s p with
  | zero =>
    rw [Function.iterate_zero_apply, hp]
    simp
  | succ n ih =>
    rw [Function.iterate_succ_apply]
    have hp1 : (updateParticles cosF sinF s).particles[j]? =
        some (tickParticle p) := by
      rw [updateParticles_particles, List.getElem?_map, hp]
      rfl
    rw [ih (updateParticles cosF sinF s) (tickParticle p) hp1]
    have harith : (tickParticle p).rotation + (n : R) * (tickParticle p).speed =
        p.rotation + ((n + 1 : ℕ) : R) * p.speed := by
      simp only [tickParticle]
      push_cast
      ring
    simp only [tickParticle] at harith ⊢
    rw [harith]

/-- Witness for C2: two ticks of the sample state. -/
theorem claim_C2_witness :
    ((updateParticles cosQ sinQ)^[2] sampleS).particles[0]? =
      some { sampleP with
        rotation := sampleP.rotation + ((2 : ℕ) : ℚ) * sampleP.speed } :=
  claim_C2_rotation_after_n_ticks cosQ sinQ 2 sampleS 0 sampleP rfl

/-- **C3**: after a tick, the pair of endpoints written for a particle is
symmetric about the particle's fixed anchor position: the componentwise
midpoint of the two buffer points equals `(position.x, position.y, 0)`. -/
theorem claim_C3_endpoints_symmetric_about_anchor (cosF sinF : R → R)
    (s : SystemState R) (hinv : BufInv s) (j : Nat) (p : Particle R)
    (hp : s.particles[j]? = some p) :
    Option.map₂ (fun a b => (a + b) / 2)
        (updateParticles cosF sinF s).vertices[j * 6]?
        (updateParticles cosF sinF s).vertices[j * 6 + 3]? = some p.posX ∧
      Option.map₂ (fun a b => (a + b) / 2)
        (updateParticles cosF sinF s).vertices[j * 6 + 1]?
        (updateParticles cosF sinF s).vertices[j * 6 + 4]? = some p.posY ∧
      Option.map₂ (fun a b => (a + b) / 2)
        (updateParticles cosF sinF s).vertices[j * 6 + 2]?
        (updateParticles cosF sinF s).vertices[j * 6 + 5]? = some 0 := by
  obtain ⟨h0, h1, h2, h3, h4, h5⟩ :=
    getElem?_updateParticles_slot cosF sinF s j p hp hinv
  rw [h0, h1, h2, h3, h4, h5]
  refine ⟨?_, ?_, ?_⟩ <;>
    · rw [Option.map₂_some_some]
      rw [Option.some.injEq]
      ring

/-- Witness for C3 at the sample one-particle state. -/
theorem claim_C3_witness :
    Option.map₂ (fun a b => (a + b) / 2)
        (updateParticles cosQ sinQ sampleS).vertices[0 * 6]?
        (updateParticles cosQ sinQ sampleS).vertices[0 * 6 + 3]? =
      some sampleP.posX ∧
      Option.map₂ (fun a b => (a + b) / 2)
          (updateParticles cosQ sinQ sampleS).vertices[0 * 6 + 1]?
          (updateParticles cosQ sinQ sampleS).vertices[0 * 6 + 4]? =
        some sampleP.posY ∧
      Option.map₂ (fun a b => (a + b) / 2)
          (updateParticles cosQ sinQ sampleS).vertices[0 * 6 + 2]?
          (updateParticles cosQ sinQ sampleS).vertices[0 * 6 + 5]? =
        some (0 : ℚ) :=
  claim_C3_endpoints_symmetric_about_anchor cosQ sinQ sampleS rfl 0 sampleP rfl

/-- **C4**: the buffer-shape invariant `vertices.length = particles.length * 6`
holds after initialization (`createParticles`, and its count-generalised body
`createParticlesN`), holds after every reinitialization (`setParticleCount`),
and is preserved by every tick. -/
theorem claim_C4_buffer_length_invariant (cosF sinF : R → R) (piV : R)
    (rnd : Nat → R) (n c : Nat) (s t : SystemState R) (h : BufInv s) :
    BufInv (updateParticles cosF sinF s) ∧
      BufInv (createParticlesN piV rnd n t) ∧
      BufInv (createParticles piV rnd t) ∧
      BufInv (setParticleCount piV rnd c t) := by
  refine ⟨?_, ?_, ?_, ?_⟩
  · unfold BufInv
    rw [length_updateParticles_vertices, updateParticles_particles,
      List.length_map]
    exact h
  · exact bufInv_createParticlesN piV rnd n t
  · rw [createParticles_eq]
    exact bufInv_createParticlesN piV rnd 80000 t
  · rw [setParticleCount_eq]
    exact bufInv_createParticlesN piV rnd 80000 _

/-- Witness for C4 at the sample state. -/
theorem claim_C4_witness :
    BufInv (updateParticles cosQ sinQ sampleS) ∧
      BufInv (createParticlesN 4 rndQ 2 sampleS) ∧
      BufInv (createParticles 4 rndQ sampleS) ∧
      BufInv (setParticleCount 4 rndQ 3 sampleS) :=
  claim_C4_buffer_length_invariant cosQ sinQ 4 rndQ 2 3 sampleS sampleS rfl

/-- **C5**: a tick rewrites the vertex buffer in full: for correctly sized
buffers the resulting buffer depends only on the particle array, not on any
previous buffer contents, so no entry survives from before the tick. -/
theorem claim_C5_buffer_rewritten_in_full (cosF sinF : R → R)
    (s1 s2 : SystemState R) (hps : s1.particles = s2.particles)
    (h1 : BufInv s1) (h2 : BufInv s2) :
    (updateParticles cosF sinF s1).vertices =
      (updateParticles cosF sinF s2).vertices := by
  apply List.ext_getElem?
  intro m
  by_cases hm : m < s1.particles.length * 6
  · have hj : m / 6 < s1.particles.length := by omega
    have hp1 : s1.particles[m / 6]? = some s1.particles[m / 6] :=
      List.getElem?_eq_getElem hj
    have hp2 : s2.particles[m / 6]? = some s1.particles[m / 6] := by
      rw [← hps]
      exact hp1
    obtain ⟨a0, a1, a2, a3, a4, a5⟩ :=
      getElem?_updateParticles_slot cosF sinF s1 (m / 6) _ hp1 h1
    obtain ⟨b0, b1, b2, b3, b4, b5⟩ :=
      getElem?_updateParticles_slot cosF sinF s2 (m / 6) _ hp2 h2
    have h6 : m % 6 = 0 ∨ m % 6 = 1 ∨ m % 6 = 2 ∨ m % 6 = 3 ∨ m % 6 = 4 ∨
        m % 6 = 5 := by omega
    rcases h6 with h | h | h | h | h | h
    · rw [show m = m / 6 * 6 by omega, a0, b0]
    · rw [show m = m / 6 * 6 + 1 by omega, a1, b1]
    · rw [show m = m / 6 * 6 + 2 by omega, a2, b2]
    · rw [show m = m / 6 * 6 + 3 by omega, a3, b3]
    · rw [show m = m / 6 * 6 + 4 by omega, a4, b4]
    · rw [show m = m / 6 * 6 + 5 by omega, a5, b5]
  · rw [List.getElem?_eq_none, List.getElem?_eq_none]
    · rw [length_updateParticles_vertices, h2, ← hps]
      omega
    · rw [length_updateParticles_vertices, h1]
      omega

/-- Witness for C5: the sample state with a zero buffer and the same state
with a stale buffer full of sevens produce identical buffers after a tick. -/
theorem claim_C5_witness :
    (updateParticles cosQ sinQ sampleS).vertices =
      (updateParticles cosQ sinQ sampleS2).vertices :=
  claim_C5_buffer_rewritten_in_full cosQ sinQ sampleS sampleS2 rfl rfl rfl

/-- **C6** (code bug): requesting a particle count is ignored.
`setParticleCount(4)` assigns `numParticles = 4` and calls `createParticles`,
but `createParticles` unconditionally resets `numParticles` to the literal
`80000` (script.ts line 174), so 80000 particles are created instead of the
requested 4 — contradicting the claim that initialization with a requested
count arranges exactly that many particles.  The count-generalised loop body
`createParticlesN` would honour the count, showing the hard-coded literal is
the sole divergence. -/
theorem claim_C6_requested_count_ignored (piV : R) (rnd : Nat → R)
    (s : SystemState R) :
    (setParticleCount piV rnd 4 s).particles.length = 80000 ∧
      (setParticleCount piV rnd 4 s).numParticles = 80000 ∧
      (createParticlesN piV rnd 4 s).particles.length = 4 := by
  refine ⟨?_, ?_, ?_⟩
  · rw [setParticleCount_eq, length_createParticlesN_particles]
  · rw [setParticleCount_eq, createParticlesN_numParticles]
  · rw [length_createParticlesN_particles]

/-- **C7**: for every value of the random source in `[0, 1)` (and any
positive `π` stand-in), every particle created by the initialization loop
receives a rotation in `[0, 2π)`, a speed in `[0.01, 0.03)` and a radius in
`[0.05, 0.15)`. -/
theorem claim_C7_random_parameter_ranges (piV : R) (rnd : Nat → R) (n : Nat)
    (s : SystemState R) (hpi : 0 < piV) (hrnd : ∀ m, 0 ≤ rnd m ∧ rnd m < 1)
    (p : Particle R) (hp : p ∈ (createParticlesN piV rnd n s).particles) :
    (0 ≤ p.rotation ∧ p.rotation < 2 * piV) ∧
      (0.01 ≤ p.speed ∧ p.speed < 0.03) ∧
      (0.05 ≤ p.radius ∧ p.radius < 0.15) := by
  rw [createParticlesN_particles, List.mem_map] at hp
  obtain ⟨i, hi, rfl⟩ := hp
  simp only [mkParticle]
  obtain ⟨hr0, hr1⟩ := hrnd (3 * i)
  obtain ⟨hs0, hs1⟩ := hrnd (3 * i + 1)
  obtain ⟨hd0, hd1⟩ := hrnd (3 * i + 2)
  refine ⟨⟨?_, ?_⟩, ⟨?_, ?_⟩, ⟨?_, ?_⟩⟩
  · have := mul_nonneg (mul_nonneg hr0 hpi.le) (by norm_num : (0 : R) ≤ 2)
    linarith
  · nlinarith [mul_pos hpi (sub_pos.mpr hr1)]
  · nlinarith [mul_nonneg hs0 (show (0 : R) ≤ 0.02 by norm_num)]
  · nlinarith [mul_lt_mul_of_pos_right hs1 (show (0 : R) < 0.02 by norm_num)]
  · nlinarith [mul_nonneg hd0 (show (0 : R) ≤ 0.1 by norm_num)]
  · nlinarith [mul_lt_mul_of_pos_right hd1 (show (0 : R) < 0.1 by norm_num)]

/-- Witness for C7: the single particle of a one-particle initialization over
`ℚ` with `piV = 4` and all random samples `1/2`. -/
theorem claim_C7_witness :
    (0 ≤ sampleP7.rotation ∧ sampleP7.rotation < 2 * 4) ∧
      (0.01 ≤ sampleP7.speed ∧ sampleP7.speed < 0.03) ∧
      (0.05 ≤ sampleP7.radius ∧ sampleP7.radius < 0.15) :=
  claim_C7_random_parameter_ranges 4 rndQ 1 sampleS (by norm_num)
    (fun m => ⟨by norm_num [rndQ], by norm_num [rndQ]⟩) sampleP7
    (by rw [createParticlesN_particles]; exact List.Mem.head _)

/-- **C8**: a tick modifies only each particle's rotation and the vertex
buffer: the particle count is unchanged, each particle is replaced by
`tickParticle` of itself, which keeps its position, speed and radius, and its
rotation strictly increases whenever its speed is positive. -/
theorem claim_C8_tick_touches_only_rotation (cosF sinF : R → R)
    (s : SystemState R) (j : Nat) (p : Particle R)
    (hp : s.particles[j]? = some p) :
    (updateParticles cosF sinF s).numParticles = s.numParticles ∧
      (updateParticles cosF sinF s).particles[j]? = some (tickParticle p) ∧
      (tickParticle p).posX = p.posX ∧
      (tickParticle p).posY = p.posY ∧
      (tickParticle p).speed = p.speed ∧
      (tickParticle p).radius = p.radius ∧
      (0 < p.speed → p.rotation < (tickParticle p).rotation) := by
  refine ⟨rfl, ?_, rfl, rfl, rfl, rfl, fun h => ?_⟩
  · rw [updateParticles_particles, List.getElem?_map, hp]
    rfl
  · simp only [tickParticle]
    linarith

/-- Witness for C8 at the sample one-particle state. -/
theorem claim_C8_witness :
    (updateParticles cosQ sinQ sampleS).numParticles = sampleS.numParticles ∧
      (updateParticles cosQ sinQ sampleS).particles[0]? =
        some (tickParticle sampleP) ∧
      (tickParticle sampleP).posX = sampleP.posX ∧
      (tickParticle sampleP).posY = sampleP.posY ∧
      (tickParticle sampleP).speed = sampleP.speed ∧
      (tickParticle sampleP).radius = sampleP.radius ∧
      (0 < sampleP.speed → sampleP.rotation < (tickParticle sampleP).rotation) :=
  claim_C8_tick_touches_only_rotation cosQ sinQ sampleS 0 sampleP rfl

/-- **C9**: each frame (`draw`) issues exactly one draw-lines call, covering
`numParticles * 2` vertices; and after any initialization `numParticles` is
the number of particles (one line segment each). -/
theorem claim_C9_one_draw_lines_per_frame (cosF sinF : R → R)
    (s : SystemState R) (piV : R) (rnd : Nat → R) (n : Nat)
    (t : SystemState R) :
    (draw cosF sinF s).2.filter GLCmd.isDrawLines =
        [GLCmd.drawLines 0 (s.numParticles * 2)] ∧
      (createParticlesN piV rnd n t).numParticles =
        (createParticlesN piV rnd n t).particles.length := by
  constructor
  · rfl
  · rw [createParticlesN_numParticles, length_createParticlesN_particles]

/-- **C10**: the only operations that can fail are the resource acquisitions
of initialization, each surfaced immediately as an error (shown here for the
first two checks; `initSystem` succeeds exactly when every acquisition
succeeds), and the tick has no error branch: embedded in the same exception
monad it returns `ok` on every state. -/
theorem claim_C10_failures_only_at_initialization (piV : R) (rnd : Nat → R)
    (cid : String) (env : BrowserEnv) (cosF sinF : R → R)
    (s : SystemState R) :
    ((initSystem piV rnd cid env).isOk =
        (env.canvasFound && env.webglAvailable && env.vertexShaderCreated &&
          env.vertexShaderCompiles && env.fragmentShaderCreated &&
          env.fragmentShaderCompiles && env.programCreated &&
          env.programLinks && env.uniformLocationsFound &&
          env.bufferCreated)) ∧
      (env.canvasFound = false →
        initSystem piV rnd cid env =
          Except.error ("Canvas element with id " ++ cid ++ " not found")) ∧
      (env.canvasFound = true → env.webglAvailable = false →
        initSystem piV rnd cid env = Except.error "WebGL not supported") ∧
      updateParticlesE cosF sinF s = Except.ok (updateParticles cosF sinF s) := by
  obtain ⟨c, w, vc, vcs, fc, fcs, pc, pl, ul, bc⟩ := env
  refine ⟨?_, ?_, ?_, rfl⟩
  · cases c <;> cases w <;> cases vc <;> cases vcs <;> cases fc <;>
      cases fcs <;> cases pc <;> cases pl <;> cases ul <;> cases bc <;> rfl
  · intro hc
    subst hc
    rfl
  · intro h1 h2
    subst h1
    subst h2
    rfl

/-- Witness for C10: the environment whose canvas lookup fails, over `ℚ`. -/
theorem claim_C10_witness :
    ((initSystem (1 : ℚ) rndQ "webgl-canvas" envNoCanvas).isOk =
        (envNoCanvas.canvasFound && envNoCanvas.webglAvailable &&
          envNoCanvas.vertexShaderCreated && envNoCanvas.vertexShaderCompiles &&
          envNoCanvas.fragmentShaderCreated &&
          envNoCanvas.fragmentShaderCompiles && envNoCanvas.programCreated &&
          envNoCanvas.programLinks && envNoCanvas.uniformLocationsFound &&
          envNoCanvas.bufferCreated)) ∧
      (envNoCanvas.canvasFound = false →
        initSystem (1 : ℚ) rndQ "webgl-canvas" envNoCanvas =
          Except.error
            ("Canvas element with id " ++ "webgl-canvas" ++ " not found")) ∧
      (envNoCanvas.canvasFound = true → envNoCanvas.webglAvailable = false →
        initSystem (1 : ℚ) rndQ "webgl-canvas" envNoCanvas =
          Except.error "WebGL not supported") ∧
      updateParticlesE cosQ sinQ sampleS =
        Except.ok (updateParticles cosQ sinQ sampleS) :=
  claim_C10_failures_only_at_initialization (1 : ℚ) rndQ "webgl-canvas"
    envNoCanvas cosQ sinQ sampleS

end Claims

end CollectionAnim
